import Mathlib

/-!
Shallow embedding of `src/Tracking.py`: the Shopify order lookup
(`get_order_from_shopify`), the carrier status resolver
(`get_carrier_status`, with its DHL branch and its Teiker default branch)
and the `/track-order` endpoint handler (`track_order`).

Modelling conventions:
* Python `None`-able strings are `Option String`; Python truthiness of such
  a value (`None` and `""` are falsy) is `optTruthy`.
* Each outbound HTTP call is a function argument (an oracle) returning an
  `HttpResult`: `transportError` models a raised `RequestException`,
  `httpError` models a non-2xx response (`raise_for_status`), `success`
  carries the decoded JSON body in the structured shape the code reads.
* Dictionary reads done with `.get(key, default)` in the code are `Option`
  fields read with `Option.getD`.
* The returned `List NetCall` logs every outbound HTTP request that the
  code would issue, so "no network call" is an empty log.
-/

namespace Tracking

/-- Python truthiness of an optional string: `None` and `""` are falsy. -/
def optTruthy : Option String → Bool
  | none => false
  | some s => s != ""

/-- Boolean list-prefix test on characters. -/
def isPrefixB : List Char → List Char → Bool
  | [], _ => true
  | _ :: _, [] => false
  | a :: as, b :: bs => a == b && isPrefixB as bs

/-- Boolean contiguous-sublist test on characters. -/
def isSubList (needle : List Char) : List Char → Bool
  | [] => needle.isEmpty
  | b :: bs => isPrefixB needle (b :: bs) || isSubList needle bs

/-- Python substring test `needle in hay`. -/
def strContains (hay needle : String) : Bool :=
  isSubList needle.data hay.data

/-- Python `str.strip()`: drop leading and trailing whitespace. -/
def strTrim (s : String) : String :=
  String.mk (((s.data.dropWhile Char.isWhitespace).reverse.dropWhile
    Char.isWhitespace).reverse)

/-- Python `str.lower()` (ASCII case folding). -/
def strToLower (s : String) : String :=
  String.mk (s.data.map Char.toLower)

/-- A normalized tracking event, `{date, location, description}`. -/
structure ShipmentEvent where
  date : String
  location : String
  description : String
deriving DecidableEq

/-- The dictionary returned by `get_carrier_status`. -/
structure CarrierStatus where
  status : String
  description : String
  events : List ShipmentEvent
deriving DecidableEq

/-- Carrier credentials read from the environment at startup. -/
structure Config where
  dhlApiKey : Option String
  teikerUser : Option String
  teikerPass : Option String

/-- One outbound HTTP request, identified by upstream and tracking/order key. -/
inductive NetCall where
  | shopify (orderName : String)
  | dhl (trackingNumber : String)
  | teiker (trackingNumber : String)
deriving DecidableEq

/-- Outcome of an outbound carrier HTTP call: a raised transport exception,
a non-2xx status (caught via `raise_for_status`), or a decoded JSON body. -/
inductive HttpResult (α : Type) where
  | transportError (msg : String)
  | httpError (msg : String)
  | success (body : α)

/-- DHL shipment `status` object: `statusCode` and `description` fields. -/
structure DHLStatusInfo where
  statusCode : Option String
  description : Option String
deriving DecidableEq

/-- DHL event `location.address` object. -/
structure DHLAddress where
  addressLocality : Option String
deriving DecidableEq

/-- DHL event `location` object. -/
structure DHLLocation where
  address : Option DHLAddress
deriving DecidableEq

/-- One raw DHL event. -/
structure DHLEvent where
  timestamp : Option String
  location : Option DHLLocation
  description : Option String
deriving DecidableEq

/-- One raw DHL shipment: `status` object and `events` list. -/
structure DHLShipment where
  status : Option DHLStatusInfo
  events : Option (List DHLEvent)
deriving DecidableEq

/-- Decoded DHL response body: optional `shipments` list. -/
structure DHLBody where
  shipments : Option (List DHLShipment)
deriving DecidableEq

/-- Normalize one DHL event, with the nested
`ev.get("location", {}).get("address", {}).get("addressLocality", "")` read. -/
def dhlEventToShipmentEvent (ev : DHLEvent) : ShipmentEvent :=
  { date := ev.timestamp.getD ""
    location :=
      (((ev.location.getD { address := none }).address.getD
        { addressLocality := none }).addressLocality).getD ""
    description := ev.description.getD "" }

/-- The DHL status-token chain of `get_carrier_status` (lines 204-224):
`"transit"`/`"in_transit"` map to `in_transit`, `"delivered"` to
`delivered`, anything else to `unknown`, always keeping the DHL-provided
description and events. -/
def dhlMapToken (code : String) (desc : String) (events : List ShipmentEvent) :
    CarrierStatus :=
  if code == "transit" || code == "in_transit" then
    { status := "in_transit", description := desc, events := events }
  else if code == "delivered" then
    { status := "delivered", description := desc, events := events }
  else
    { status := "unknown", description := desc, events := events }

/-- Handling of a successful (2xx) DHL body (lines 179-224). -/
def dhlSuccess (body : DHLBody) : CarrierStatus :=
  match body.shipments.getD [] with
  | [] =>
    { status := "unknown", description := "No se encontró información en DHL"
      events := [] }
  | shipment_info :: _ =>
    let status_info := shipment_info.status.getD { statusCode := none, description := none }
    let dhl_status_code := strToLower (status_info.statusCode.getD "unknown")
    let dhl_status_desc := status_info.description.getD "Sin descripción"
    let events_list := (shipment_info.events.getD []).map dhlEventToShipmentEvent
    dhlMapToken dhl_status_code dhl_status_desc events_list

/-- The DHL branch of `get_carrier_status` (lines 160-239): credential
check, then one GET whose three outcomes are folded into a `CarrierStatus`. -/
def dhlIntegration (cfg : Config) (dhlApi : String → HttpResult DHLBody)
    (tracking_number : String) : CarrierStatus × List NetCall :=
  if !optTruthy cfg.dhlApiKey then
    ({ status := "error", description := "Faltan credenciales de DHL", events := [] }, [])
  else
    match dhlApi tracking_number with
    | .transportError msg =>
      ({ status := "error", description := msg, events := [] }, [.dhl tracking_number])
    | .httpError msg =>
      ({ status := "error", description := "Error HTTP: " ++ msg, events := [] },
        [.dhl tracking_number])
    | .success body => (dhlSuccess body, [.dhl tracking_number])

/-- One raw Teiker event, `{fecha, descripcion}`. -/
structure TeikerEvent where
  fecha : Option String
  descripcion : Option String
deriving DecidableEq

/-- One raw Teiker shipment record. -/
structure TeikerShipment where
  Status : Option String
  TrackingData : Option (List TeikerEvent)
deriving DecidableEq

/-- Decoded Teiker response body: a JSON object keyed by tracking number. -/
abbrev TeikerBody := List (String × TeikerShipment)

/-- The read `teiker_data.get(str(tracking_number), {})`. -/
def teikerLookup (body : TeikerBody) (key : String) : TeikerShipment :=
  match body.find? (fun p => p.fst == key) with
  | some p => p.snd
  | none => { Status := none, TrackingData := none }

/-- The Teiker status-token chain of `get_carrier_status` (lines 316-336). -/
def teikerMapToken (teiker_status : String) (events : List ShipmentEvent) :
    CarrierStatus :=
  if ["in_transit", "en ruta", "en camino", "recoleccion", "recolección"].contains
      teiker_status then
    { status := "in_transit", description := "En tránsito (Teiker): " ++ teiker_status
      events := events }
  else if ["delivered", "entregado"].contains teiker_status then
    { status := "delivered", description := "Entregado (Teiker)", events := events }
  else
    { status := "unknown", description := "Estado desconocido: " ++ teiker_status
      events := events }

/-- Handling of a successful (2xx) Teiker body (lines 297-336). -/
def teikerSuccess (tracking_number : String) (body : TeikerBody) : CarrierStatus :=
  let shipment_info := teikerLookup body tracking_number
  let teiker_status := strToLower ( shipment_info.Status.getD "UNKNOWN")
  let tracking_events := shipment_info.TrackingData.getD []
  let events_list := tracking_events.map (fun ev =>
    { date := ev.fecha.getD "", location := "", description := ev.descripcion.getD "" })
  teikerMapToken teiker_status events_list

/-- The Teiker (default) branch of `get_carrier_status` (lines 246-351). -/
def teikerIntegration (cfg : Config) (teikerApi : String → HttpResult TeikerBody)
    (tracking_number : String) : CarrierStatus × List NetCall :=
  if !optTruthy cfg.teikerUser || !optTruthy cfg.teikerPass then
    ({ status := "error", description := "Faltan credenciales de Teiker", events := [] }, [])
  else
    match teikerApi tracking_number with
    | .transportError msg =>
      ({ status := "error", description := msg, events := [] }, [.teiker tracking_number])
    | .httpError msg =>
      ({ status := "error", description := "Error HTTP: " ++ msg, events := [] },
        [.teiker tracking_number])
    | .success body => (teikerSuccess tracking_number body, [.teiker tracking_number])

/-- Line 155: `carrier = tracking_company.strip().lower() if tracking_company else ""`. -/
def normalizeCarrier (tracking_company : Option String) : String :=
  if optTruthy tracking_company then strToLower (strTrim (tracking_company.getD "")) else ""

/-- Modelled from the spec words for the claim C1 comparison only (the code
itself does not do this): trim, lowercase, then strip spaces and hyphens. -/
def normalizeCarrierSpec (tracking_company : Option String) : String :=
  String.mk ((strToLower (strTrim (tracking_company.getD ""))).data.filter
    (fun c => !(c == ' ' || c == '-')))

/-- `get_carrier_status` (lines 143-351): no-tracking short-circuit, carrier
name normalization, then substring dispatch to DHL or the Teiker default. -/
def get_carrier_status (cfg : Config) (dhlApi : String → HttpResult DHLBody)
    (teikerApi : String → HttpResult TeikerBody)
    (tracking_company : Option String) (tracking_number : Option String) :
    CarrierStatus × List NetCall :=
  if !optTruthy tracking_number then
    ({ status := "no_tracking", description := "No hay tracking asignado", events := [] }, [])
  else
    if strContains (normalizeCarrier tracking_company) "dhl" then
      dhlIntegration cfg dhlApi (tracking_number.getD "")
    else
      teikerIntegration cfg teikerApi (tracking_number.getD "")

/-- Shopify credentials read from the environment at startup. -/
structure ShopifyConfig where
  shopifyStore : Option String
  accessToken : Option String

/-- One entry of a fulfillment's `trackingInfo` list. -/
structure TrackingInfoEntry where
  number : Option String
  company : Option String
deriving DecidableEq

/-- One Shopify fulfillment. -/
structure Fulfillment where
  trackingInfo : List TrackingInfoEntry
deriving DecidableEq

/-- One Shopify line-item node, with the
`variant.product.featuredImage.url` chain collapsed to its optional url. -/
structure LineItemNode where
  title : String
  quantity : Nat
  featuredImageUrl : Option String
deriving DecidableEq

/-- One Shopify order node as read by the handler. -/
structure OrderNode where
  name : String
  email : String
  displayFinancialStatus : String
  displayFulfillmentStatus : String
  lineItems : List LineItemNode
  totalAmount : String
  totalCurrencyCode : String
  fulfillments : List Fulfillment
deriving DecidableEq

/-- Outcome of the Shopify GraphQL POST: transport exception, non-2xx
status, or a 2xx body with an optional top-level `errors` payload and the
`orders.edges` node list. -/
inductive ShopifyHttp where
  | transportError (msg : String)
  | httpError (statusCode : Nat) (text : String)
  | success (gqlErrors : Option String) (edges : List OrderNode)

/-- Return value of `get_order_from_shopify`: an `{"error": ...}` dict, the
Python `None`, or the matching order node. -/
inductive ShopifyResult where
  | err (msg : String)
  | noOrder
  | order (node : OrderNode)
deriving DecidableEq

/-- Line 126: `node["email"].lower() == email.lower()`. -/
def emailMatches (node : OrderNode) (email : String) : Bool :=
  strToLower node.email == strToLower email

/-- `get_order_from_shopify` (lines 49-138): credential check, one POST,
error folding, then the first-match case-insensitive email scan. -/
def get_order_from_shopify (scfg : ShopifyConfig) (shopifyApi : String → ShopifyHttp)
    (order_name : String) (email : String) : ShopifyResult × List NetCall :=
  if !optTruthy scfg.accessToken || !optTruthy scfg.shopifyStore then
    (.err "Faltan credenciales de Shopify", [])
  else
    match shopifyApi order_name with
    | .transportError msg => (.err msg, [.shopify order_name])
    | .httpError code text =>
      (.err ("HTTP Error: " ++ toString code ++ " - " ++ text), [.shopify order_name])
    | .success (some gqlErrors) _ => (.err gqlErrors, [.shopify order_name])
    | .success none orders_edges =>
      match orders_edges.find? (fun node => emailMatches node email) with
      | some node => (.order node, [.shopify order_name])
      | none => (.noOrder, [.shopify order_name])

/-- The JSON body of the `/track-order` request. -/
structure TrackRequest where
  orderNumber : Option String
  email : Option String

/-- One flattened line item of the response. -/
structure LineItemOut where
  title : String
  quantity : Nat
  imageUrl : String
deriving DecidableEq

/-- The four progress-step booleans of the response. -/
structure ProgressSteps where
  step1 : Bool
  step2 : Bool
  step3 : Bool
  step4 : Bool
deriving DecidableEq

/-- The 200 response body of `/track-order` (lines 416-435). -/
structure TrackBody where
  name : String
  email : String
  financialStatus : String
  fulfillmentStatus : String
  lineItems : List LineItemOut
  totalPrice : String
  currency : String
  trackingNumber : Option String
  trackingCompany : Option String
  currentCarrierStatus : String
  carrierDescription : String
  events : List ShipmentEvent
  progressSteps : ProgressSteps
deriving DecidableEq

/-- The `/track-order` HTTP response: 400, 404, or 200 with a body. -/
inductive TrackResponse where
  | badRequest (error : String)
  | notFound (error : String)
  | ok (body : TrackBody)
deriving DecidableEq

/-- Line-item flattening (lines 379-390). -/
def flattenLineItem (node : LineItemNode) : LineItemOut :=
  { title := node.title, quantity := node.quantity
    imageUrl := node.featuredImageUrl.getD "" }

/-- Tracking extraction from the first fulfillment's first tracking entry
(lines 393-402); both components stay `none` when either list is empty. -/
def extractTracking (shopify_order : OrderNode) : Option String × Option String :=
  match shopify_order.fulfillments with
  | [] => (none, none)
  | first_fulfillment :: _ =>
    match first_fulfillment.trackingInfo with
    | [] => (none, none)
    | t :: _ => (t.number, t.company)

/-- The step booleans (lines 410-413). -/
def progressStepsFor (tracking_number tracking_company : Option String)
    (status : String) : ProgressSteps :=
  { step1 := true
    step2 := optTruthy tracking_number && optTruthy tracking_company
    step3 := status == "in_transit" || status == "delivered"
    step4 := status == "delivered" }

/-- Assembly of the 200 response body (lines 416-435). -/
def buildBody (shopify_order : OrderNode) (tracking_number tracking_company : Option String)
    (carrier_status : CarrierStatus) : TrackBody :=
  { name := shopify_order.name
    email := shopify_order.email
    financialStatus := shopify_order.displayFinancialStatus
    fulfillmentStatus := shopify_order.displayFulfillmentStatus
    lineItems := shopify_order.lineItems.map flattenLineItem
    totalPrice := shopify_order.totalAmount
    currency := shopify_order.totalCurrencyCode
    trackingNumber := tracking_number
    trackingCompany := tracking_company
    currentCarrierStatus := carrier_status.status
    carrierDescription := carrier_status.description
    events := carrier_status.events
    progressSteps := progressStepsFor tracking_number tracking_company carrier_status.status }

/-- The `/track-order` handler (lines 356-438): field validation, order
lookup, tracking extraction, carrier resolution, response assembly. -/
def track_order (cfg : Config) (scfg : ShopifyConfig)
    (shopifyApi : String → ShopifyHttp)
    (dhlApi : String → HttpResult DHLBody)
    (teikerApi : String → HttpResult TeikerBody)
    (req : TrackRequest) : TrackResponse × List NetCall :=
  if !optTruthy req.orderNumber || !optTruthy req.email then
    (.badRequest "Número de pedido y correo son requeridos", [])
  else
    let lookup := get_order_from_shopify scfg shopifyApi
      (req.orderNumber.getD "") (req.email.getD "")
    match lookup.fst with
    | .noOrder => (.notFound "Pedido no encontrado o el email no coincide", lookup.snd)
    | .err msg => (.badRequest msg, lookup.snd)
    | .order shopify_order =>
      let tracking := extractTracking shopify_order
      let carrier := get_carrier_status cfg dhlApi teikerApi tracking.snd tracking.fst
      (.ok (buildBody shopify_order tracking.fst tracking.snd carrier.fst),
        lookup.snd ++ carrier.snd)

/-! ### Concrete oracles and configurations used by closed theorems -/

/-- A DHL oracle that is never meant to be reached. -/
def noDhl : String → HttpResult DHLBody := fun _ => .transportError "unreachable"

/-- A Teiker oracle that is never meant to be reached. -/
def noTeiker : String → HttpResult TeikerBody := fun _ => .transportError "unreachable"

/-- A Shopify oracle that is never meant to be reached. -/
def noShopify : String → ShopifyHttp := fun _ => .transportError "unreachable"

/-- A carrier configuration with every credential present. -/
def cfgFull : Config := { dhlApiKey := some "k", teikerUser := some "u", teikerPass := some "p" }

/-- A carrier configuration with no credential present. -/
def cfgEmpty : Config := { dhlApiKey := none, teikerUser := none, teikerPass := none }

/-- A Shopify configuration with both credentials present. -/
def scfgFull : ShopifyConfig := { shopifyStore := some "shop.example", accessToken := some "tok" }

/-! ### Helper lemmas -/

theorem isPrefixB_refl (l : List Char) : isPrefixB l l = true := by
  induction l with
  | nil => rfl
  | cons a as ih => simp [isPrefixB, ih]

theorem isSubList_self (l : List Char) : isSubList l l = true := by
  cases l with
  | nil => rfl
  | cons a as => simp [isSubList, isPrefixB_refl]

theorem isSubList_append_right (p s : List Char) : isSubList s (p ++ s) = true := by
  induction p with
  | nil => simpa using isSubList_self s
  | cons a as ih => simp [isSubList, ih]

theorem strContains_append_right (p s : String) : strContains (p ++ s) s = true := by
  have hdata : (p ++ s).data = p.data ++ s.data := by
    cases p
    cases s
    rfl
  unfold strContains
  rw [hdata]
  exact isSubList_append_right p.data s.data

theorem find?_first {α : Type} (p : α → Bool) :
    ∀ (l : List α) (x : α), l.find? p = some x →
      p x = true ∧ ∃ l₁ l₂, l = l₁ ++ x :: l₂ ∧ ∀ y ∈ l₁, p y = false := by
  intro l
  induction l with
  | nil => intro x h; simp [List.find?] at h
  | cons a as ih =>
    intro x h
    by_cases ha : p a = true
    · rw [List.find?_cons_of_pos _ ha] at h
      cases h
      exact ⟨ha, [], as, rfl, by simp⟩
    · have ha' : p a = false := by simpa using ha
      rw [List.find?_cons_of_neg _ (by simp [ha'])] at h
      obtain ⟨hx, l₁, l₂, hl, hprev⟩ := ih x h
      refine ⟨hx, a :: l₁, l₂, by simp [hl], ?_⟩
      intro y hy
      rcases List.mem_cons.mp hy with rfl | hy
      · exact ha'
      · exact hprev y hy

/-! ### Claim theorems -/

/-- Claim C7, counterexample to the quoted description string: for an
absent tracking number the resolver returns status `no_tracking` with the
Spanish description `"No hay tracking asignado"`, which is not the string
`"No tracking assigned"` stated by the claim. -/
theorem C7_counterexample :
    get_carrier_status cfgEmpty noDhl noTeiker (some "DHL") none =
      ({ status := "no_tracking", description := "No hay tracking asignado", events := [] },
        []) ∧
    "No hay tracking asignado" ≠ "No tracking assigned" := by
  constructor
  · rfl
  · decide

/-- Claim C7 (amended): for every carrier name and every absent or empty
tracking number, the resolver immediately returns status `no_tracking`
with description `"No hay tracking asignado"` and an empty events list,
and issues zero network calls. -/
theorem C7_no_tracking (cfg : Config) (dhlApi : String → HttpResult DHLBody)
    (teikerApi : String → HttpResult TeikerBody)
    (tc tn : Option String) (h : optTruthy tn = false) :
    get_carrier_status cfg dhlApi teikerApi tc tn =
      ({ status := "no_tracking", description := "No hay tracking asignado", events := [] },
        []) := by
  unfold get_carrier_status
  simp [h]

/-- Witness for C7: the amended theorem applied at an empty tracking number
with carrier name "Estafeta". -/
theorem C7_no_tracking_witness :
    get_carrier_status cfgFull noDhl noTeiker (some "Estafeta") (some "") =
      ({ status := "no_tracking", description := "No hay tracking asignado", events := [] },
        []) :=
  C7_no_tracking cfgFull noDhl noTeiker (some "Estafeta") (some "") (by decide)

/-- Claim C8: whenever `orderNumber` or `email` is missing or empty, the
endpoint answers 400 with an error body and performs no upstream call at
all (the network-call log is empty). -/
theorem C8_validation (cfg : Config) (scfg : ShopifyConfig)
    (shopifyApi : String → ShopifyHttp) (dhlApi : String → HttpResult DHLBody)
    (teikerApi : String → HttpResult TeikerBody) (req : TrackRequest)
    (h : optTruthy req.orderNumber = false ∨ optTruthy req.email = false) :
    track_order cfg scfg shopifyApi dhlApi teikerApi req =
      (.badRequest "Número de pedido y correo son requeridos", []) := by
  unfold track_order
  rcases h with h | h <;> simp [h]

/-- Witness for C8: the theorem applied at a request missing the order
number and at a request with an empty email. -/
theorem C8_validation_witness :
    track_order cfgFull scfgFull noShopify noDhl noTeiker
        { orderNumber := none, email := some "x@y.com" } =
      (.badRequest "Número de pedido y correo son requeridos", []) ∧
    track_order cfgFull scfgFull noShopify noDhl noTeiker
        { orderNumber := some "1001", email := some "" } =
      (.badRequest "Número de pedido y correo son requeridos", []) :=
  ⟨C8_validation cfgFull scfgFull noShopify noDhl noTeiker _ (Or.inl (by decide)),
   C8_validation cfgFull scfgFull noShopify noDhl noTeiker _ (Or.inr (by decide))⟩

/-- Claim C10: for every non-empty tracking number with an absent carrier
name, the resolver normalizes the carrier name to the empty string (no
null dereference: `normalizeCarrier` is total on `none`) and routes the
request to the default Teiker integration. -/
theorem C10_null_carrier_default (cfg : Config) (dhlApi : String → HttpResult DHLBody)
    (teikerApi : String → HttpResult TeikerBody) (tn : Option String)
    (htn : optTruthy tn = true) :
    normalizeCarrier none = "" ∧
    get_carrier_status cfg dhlApi teikerApi none tn =
      teikerIntegration cfg teikerApi (tn.getD "") := by
  have hsub : strContains (normalizeCarrier none) "dhl" = false := by decide
  constructor
  · rfl
  · unfold get_carrier_status
    simp [htn, hsub]

/-- Witness for C10: the theorem applied at tracking number "TN1". -/
theorem C10_null_carrier_default_witness :
    normalizeCarrier none = "" ∧
    get_carrier_status cfgEmpty noDhl noTeiker none (some "TN1") =
      teikerIntegration cfgEmpty noTeiker "TN1" :=
  C10_null_carrier_default cfgEmpty noDhl noTeiker (some "TN1") (by decide)

/-- Claim C1, counterexample: the carrier name "D-HL" contains "dhl"
under the claimed space/hyphen-insensitive normalization
(`normalizeCarrierSpec`), but the code's normalization (`normalizeCarrier`,
trim and lowercase only) leaves the hyphen in place, so the resolver routes
"D-HL" to the default Teiker integration (observable here as the Teiker
missing-credential error), not to DHL. -/
theorem C1_counterexample :
    strContains (normalizeCarrierSpec (some "D-HL")) "dhl" = true ∧
    strContains (normalizeCarrier (some "D-HL")) "dhl" = false ∧
    (get_carrier_status { dhlApiKey := some "k", teikerUser := none, teikerPass := none }
        noDhl noTeiker (some "D-HL") (some "TN9")).fst =
      { status := "error", description := "Faltan credenciales de Teiker", events := [] } := by
  refine ⟨by decide, by decide, ?_⟩
  rfl

/-- Claim C1 (amended): the resolver normalizes the carrier name by
trimming and lowercasing only (empty string when the name is absent or
empty; no space or hyphen stripping), and every name whose normalized form
contains the substring "dhl" selects the DHL integration, never the
Teiker default. -/
theorem C1_dhl_selection (cfg : Config) (dhlApi : String → HttpResult DHLBody)
    (teikerApi : String → HttpResult TeikerBody) (tc tn : Option String) (c : String)
    (htn : optTruthy tn = true)
    (hdhl : strContains (normalizeCarrier tc) "dhl" = true) :
    normalizeCarrier none = "" ∧
    normalizeCarrier (some c) = (if c == "" then "" else strToLower (strTrim c)) ∧
    get_carrier_status cfg dhlApi teikerApi tc tn =
      dhlIntegration cfg dhlApi (tn.getD "") := by
  refine ⟨rfl, ?_, ?_⟩
  · by_cases hc : c = "" <;> simp [normalizeCarrier, optTruthy, hc]
  · unfold get_carrier_status
    simp [htn, hdhl]

/-- Witness for C1: the amended theorem applied at carrier name
"DHL Express" and tracking number "123". -/
theorem C1_dhl_selection_witness :
    normalizeCarrier none = "" ∧
    normalizeCarrier (some "x") = (if "x" == "" then "" else strToLower (strTrim "x")) ∧
    get_carrier_status cfgFull noDhl noTeiker (some "DHL Express") (some "123") =
      dhlIntegration cfgFull noDhl "123" :=
  C1_dhl_selection cfgFull noDhl noTeiker (some "DHL Express") (some "123") "x"
    (by decide) (by decide)

/-- A DHL body whose shipment carries the unrecognized status token
"weird" and the DHL-provided description "Paquete procesado". -/
def c5DhlStatusInfo : DHLStatusInfo :=
  { statusCode := some "weird", description := some "Paquete procesado" }

/-- A DHL body carrying `c5DhlStatusInfo` and no events. -/
def c5DhlBody : DHLBody :=
  { shipments := some [{ status := some c5DhlStatusInfo, events := some [] }] }

/-- Claim C5, counterexample: on a successful DHL response with the
unrecognized status token "weird", the resolver returns status `unknown`
whose description is the DHL-provided description, which does not contain
the raw token — so the raw token is not embedded in the description. -/
theorem C5_counterexample :
    (get_carrier_status cfgFull (fun _ => .success c5DhlBody) noTeiker
        (some "DHL") (some "1")).fst =
      { status := "unknown", description := "Paquete procesado", events := [] } ∧
    strContains "Paquete procesado" "weird" = false := by
  refine ⟨rfl, by decide⟩

/-- Claim C5 (amended): recognized synonyms map to the normalized
vocabulary ("transit"/"in_transit" to `in_transit`, "delivered" to
`delivered` for DHL; "entregado"/"delivered" to `delivered` and the
in-transit synonym list to `in_transit` for Teiker); every other token maps
to `unknown`, where the Teiker integration embeds the raw token in its
description but the DHL integration reports the DHL-provided description
instead; no case raises an exception (both mappers are total). -/
theorem C5_status_mapping (desc : String) (events : List ShipmentEvent)
    (t s : String)
    (hd : (t == "transit" || t == "in_transit") = false)
    (hd2 : (t == "delivered") = false)
    (hs : ["in_transit", "en ruta", "en camino", "recoleccion", "recolección"].contains
      s = false)
    (hs2 : ["delivered", "entregado"].contains s = false) :
    dhlMapToken "transit" desc events =
      { status := "in_transit", description := desc, events := events } ∧
    dhlMapToken "in_transit" desc events =
      { status := "in_transit", description := desc, events := events } ∧
    dhlMapToken "delivered" desc events =
      { status := "delivered", description := desc, events := events } ∧
    teikerMapToken "entregado" events =
      { status := "delivered", description := "Entregado (Teiker)", events := events } ∧
    teikerMapToken "delivered" events =
      { status := "delivered", description := "Entregado (Teiker)", events := events } ∧
    teikerMapToken "in_transit" events =
      { status := "in_transit", description := "En tránsito (Teiker): in_transit"
        events := events } ∧
    dhlMapToken t desc events =
      { status := "unknown", description := desc, events := events } ∧
    teikerMapToken s events =
      { status := "unknown", description := "Estado desconocido: " ++ s
        events := events } ∧
    strContains ("Estado desconocido: " ++ s) s = true := by
  refine ⟨rfl, rfl, rfl, rfl, rfl, rfl, ?_, ?_, ?_⟩
  · unfold dhlMapToken
    simp [hd, hd2]
  · have hs' : ¬ (s = "in_transit" ∨ s = "en ruta" ∨ s = "en camino" ∨
        s = "recoleccion" ∨ s = "recolección") := by simpa using hs
    have hs2' : ¬ (s = "delivered" ∨ s = "entregado") := by simpa using hs2
    unfold teikerMapToken
    simp [hs', hs2']
  · exact strContains_append_right "Estado desconocido: " s

/-- Witness for C5: the amended theorem applied at the unrecognized tokens
"weird" (DHL) and "extraviado" (Teiker). -/
theorem C5_status_mapping_witness :
    dhlMapToken "transit" "d" [] =
      { status := "in_transit", description := "d", events := [] } ∧
    dhlMapToken "in_transit" "d" [] =
      { status := "in_transit", description := "d", events := [] } ∧
    dhlMapToken "delivered" "d" [] =
      { status := "delivered", description := "d", events := [] } ∧
    teikerMapToken "entregado" [] =
      { status := "delivered", description := "Entregado (Teiker)", events := [] } ∧
    teikerMapToken "delivered" [] =
      { status := "delivered", description := "Entregado (Teiker)", events := [] } ∧
    teikerMapToken "in_transit" [] =
      { status := "in_transit", description := "En tránsito (Teiker): in_transit"
        events := [] } ∧
    dhlMapToken "weird" "d" [] =
      { status := "unknown", description := "d", events := [] } ∧
    teikerMapToken "extraviado" [] =
      { status := "unknown", description := "Estado desconocido: " ++ "extraviado"
        events := [] } ∧
    strContains ("Estado desconocido: " ++ "extraviado") "extraviado" = true :=
  C5_status_mapping "d" [] "weird" "extraviado" (by decide) (by decide)
    (by decide) (by decide)

/-- The normalized status vocabulary of the resolver. -/
def statusVocab : List String := ["no_tracking", "in_transit", "delivered", "unknown", "error"]

theorem dhlMapToken_status_mem (code desc : String) (events : List ShipmentEvent) :
    (dhlMapToken code desc events).status ∈ ["in_transit", "delivered", "unknown"] := by
  unfold dhlMapToken
  split
  · simp
  · split <;> simp

theorem teikerMapToken_status_mem (s : String) (events : List ShipmentEvent) :
    (teikerMapToken s events).status ∈ ["in_transit", "delivered", "unknown"] := by
  unfold teikerMapToken
  split
  · simp
  · split <;> simp

theorem dhlSuccess_status_mem (body : DHLBody) :
    (dhlSuccess body).status ∈ ["in_transit", "delivered", "unknown"] := by
  unfold dhlSuccess
  split
  · simp
  · apply dhlMapToken_status_mem

theorem teikerSuccess_status_mem (tn : String) (body : TeikerBody) :
    (teikerSuccess tn body).status ∈ ["in_transit", "delivered", "unknown"] := by
  unfold teikerSuccess
  apply teikerMapToken_status_mem

theorem dhlIntegration_status_mem (cfg : Config) (dhlApi : String → HttpResult DHLBody)
    (tn : String) : (dhlIntegration cfg dhlApi tn).fst.status ∈ statusVocab := by
  unfold dhlIntegration statusVocab
  split
  · simp
  · split
    · simp
    · simp
    · rename_i body heq
      have h := dhlSuccess_status_mem body
      simp only [List.mem_cons, List.not_mem_nil, or_false] at h
      rcases h with h | h | h <;> simp [h]

theorem teikerIntegration_status_mem (cfg : Config)
    (teikerApi : String → HttpResult TeikerBody) (tn : String) :
    (teikerIntegration cfg teikerApi tn).fst.status ∈ statusVocab := by
  unfold teikerIntegration statusVocab
  split
  · simp
  · split
    · simp
    · simp
    · rename_i body heq
      have h := teikerSuccess_status_mem tn body
      simp only [List.mem_cons, List.not_mem_nil, or_false] at h
      rcases h with h | h | h <;> simp [h]

/-- Claim C3: the resolver is a total function (no exception can reach the
caller in this embedding) whose status field always lies in the normalized
vocabulary; missing credentials, transport failures and non-2xx responses
all yield status `error`, and a missing tracking number yields
`no_tracking`. -/
theorem C3_resolver_never_throws :
    (∀ (cfg : Config) (dhlApi : String → HttpResult DHLBody)
      (teikerApi : String → HttpResult TeikerBody) (tc tn : Option String),
      (get_carrier_status cfg dhlApi teikerApi tc tn).fst.status ∈ statusVocab) ∧
    (∀ (cfg : Config) (dhlApi : String → HttpResult DHLBody) (tn : String),
      optTruthy cfg.dhlApiKey = false →
      (dhlIntegration cfg dhlApi tn).fst.status = "error") ∧
    (∀ (cfg : Config) (dhlApi : String → HttpResult DHLBody) (tn msg : String),
      dhlApi tn = .transportError msg →
      (dhlIntegration cfg dhlApi tn).fst.status = "error") ∧
    (∀ (cfg : Config) (dhlApi : String → HttpResult DHLBody) (tn msg : String),
      dhlApi tn = .httpError msg →
      (dhlIntegration cfg dhlApi tn).fst.status = "error") ∧
    (∀ (cfg : Config) (teikerApi : String → HttpResult TeikerBody) (tn : String),
      optTruthy cfg.teikerUser = false ∨ optTruthy cfg.teikerPass = false →
      (teikerIntegration cfg teikerApi tn).fst.status = "error") ∧
    (∀ (cfg : Config) (teikerApi : String → HttpResult TeikerBody) (tn msg : String),
      teikerApi tn = .transportError msg →
      (teikerIntegration cfg teikerApi tn).fst.status = "error") ∧
    (∀ (cfg : Config) (teikerApi : String → HttpResult TeikerBody) (tn msg : String),
      teikerApi tn = .httpError msg →
      (teikerIntegration cfg teikerApi tn).fst.status = "error") ∧
    (∀ (cfg : Config) (dhlApi : String → HttpResult DHLBody)
      (teikerApi : String → HttpResult TeikerBody) (tc : Option String),
      (get_carrier_status cfg dhlApi teikerApi tc none).fst.status = "no_tracking") := by
  refine ⟨?_, ?_, ?_, ?_, ?_, ?_, ?_, ?_⟩
  · intro cfg dhlApi teikerApi tc tn
    unfold get_carrier_status
    split
    · simp [statusVocab]
    · split
      · apply dhlIntegration_status_mem
      · apply teikerIntegration_status_mem
  · intro cfg dhlApi tn h
    unfold dhlIntegration
    simp [h]
  · intro cfg dhlApi tn msg h
    unfold dhlIntegration
    split
    · rfl
    · rw [h]
  · intro cfg dhlApi tn msg h
    unfold dhlIntegration
    split
    · rfl
    · rw [h]
  · intro cfg teikerApi tn h
    unfold teikerIntegration
    rcases h with h | h <;> simp [h]
  · intro cfg teikerApi tn msg h
    unfold teikerIntegration
    split
    · rfl
    · rw [h]
  · intro cfg teikerApi tn msg h
    unfold teikerIntegration
    split
    · rfl
    · rw [h]
  · intro cfg dhlApi teikerApi tc
    rfl

/-- Witness for C3: every conjunct of the theorem applied at concrete
inputs, discharging each hypothesis. -/
theorem C3_resolver_never_throws_witness :
    (get_carrier_status cfgFull noDhl noTeiker (some "DHL") (some "1")).fst.status ∈
      statusVocab ∧
    (dhlIntegration cfgEmpty noDhl "1").fst.status = "error" ∧
    (dhlIntegration cfgFull noDhl "1").fst.status = "error" ∧
    (dhlIntegration cfgFull (fun _ => .httpError "404") "1").fst.status = "error" ∧
    (teikerIntegration cfgEmpty noTeiker "1").fst.status = "error" ∧
    (teikerIntegration cfgFull noTeiker "1").fst.status = "error" ∧
    (teikerIntegration cfgFull (fun _ => .httpError "500") "1").fst.status = "error" ∧
    (get_carrier_status cfgFull noDhl noTeiker (some "DHL") none).fst.status =
      "no_tracking" :=
  ⟨C3_resolver_never_throws.1 cfgFull noDhl noTeiker (some "DHL") (some "1"),
   C3_resolver_never_throws.2.1 cfgEmpty noDhl "1" (by decide),
   C3_resolver_never_throws.2.2.1 cfgFull noDhl "1" "unreachable" rfl,
   C3_resolver_never_throws.2.2.2.1 cfgFull (fun _ => .httpError "404") "1" "404" rfl,
   C3_resolver_never_throws.2.2.2.2.1 cfgEmpty noTeiker "1" (Or.inl (by decide)),
   C3_resolver_never_throws.2.2.2.2.2.1 cfgFull noTeiker "1" "unreachable" rfl,
   C3_resolver_never_throws.2.2.2.2.2.2.1 cfgFull (fun _ => .httpError "500") "1" "500" rfl,
   C3_resolver_never_throws.2.2.2.2.2.2.2 cfgFull noDhl noTeiker (some "DHL")⟩

/-- A minimal order node around a stored email, used for closed instances. -/
def emailNode (e : String) : OrderNode :=
  { name := "#1001", email := e, displayFinancialStatus := "PAID",
    displayFulfillmentStatus := "FULFILLED", lineItems := [], totalAmount := "0",
    totalCurrencyCode := "MXN", fulfillments := [] }

/-- Claim C6: the lookup scans candidate orders in backend order and
returns the first whose stored email matches the supplied email
case-insensitively (so stored `A@B.com` matches request `a@b.com`); when no
candidate matches, the lookup returns `noOrder` and the endpoint answers
404 with the same constant message used when no order exists at all. -/
theorem C6_email_scan (cfg : Config) (scfg : ShopifyConfig)
    (shopifyApi : String → ShopifyHttp)
    (dhlApi : String → HttpResult DHLBody) (teikerApi : String → HttpResult TeikerBody)
    (orders_edges : List OrderNode) (order_name email : String) (node : OrderNode)
    (hcred1 : optTruthy scfg.accessToken = true)
    (hcred2 : optTruthy scfg.shopifyStore = true)
    (hapi : shopifyApi order_name = .success none orders_edges) :
    emailMatches (emailNode "A@B.com") "a@b.com" = true ∧
    ((get_order_from_shopify scfg shopifyApi order_name email).fst = .order node →
      emailMatches node email = true ∧
      ∃ l₁ l₂, orders_edges = l₁ ++ node :: l₂ ∧
        ∀ y ∈ l₁, emailMatches y email = false) ∧
    ((∀ y ∈ orders_edges, emailMatches y email = false) →
      (get_order_from_shopify scfg shopifyApi order_name email).fst = .noOrder) ∧
    (order_name ≠ "" → email ≠ "" →
      (∀ y ∈ orders_edges, emailMatches y email = false) →
      (track_order cfg scfg shopifyApi dhlApi teikerApi
          { orderNumber := some order_name, email := some email }).fst =
        .notFound "Pedido no encontrado o el email no coincide") := by
  have hfst : (get_order_from_shopify scfg shopifyApi order_name email).fst =
      (match orders_edges.find? (fun n => emailMatches n email) with
        | some n => ShopifyResult.order n
        | none => ShopifyResult.noOrder) := by
    unfold get_order_from_shopify
    rw [hcred1, hcred2]
    simp only [Bool.not_true, Bool.or_self, Bool.false_eq_true, if_false, hapi]
    cases orders_edges.find? (fun n => emailMatches n email) <;> rfl
  refine ⟨by decide, ?_, ?_, ?_⟩
  · intro hord
    rw [hfst] at hord
    cases hfind : orders_edges.find? (fun n => emailMatches n email) with
    | none =>
      rw [hfind] at hord
      cases hord
    | some m =>
      rw [hfind] at hord
      injection hord with hmn
      subst hmn
      exact find?_first _ orders_edges m hfind
  · intro hnone
    rw [hfst, List.find?_eq_none.mpr (by intro y hy; simp [hnone y hy])]
  · intro hon hem hnone
    have hno : (get_order_from_shopify scfg shopifyApi order_name email).fst =
        .noOrder := by
      rw [hfst, List.find?_eq_none.mpr (by intro y hy; simp [hnone y hy])]
    have h1 : optTruthy (some order_name) = true := by
      simp [optTruthy, hon]
    have h2 : optTruthy (some email) = true := by
      simp [optTruthy, hem]
    unfold track_order
    simp only [h1, h2, Bool.not_true, Bool.or_self, Bool.false_eq_true, if_false,
      Option.getD_some]
    rw [hno]

/-- Candidate list for the C6 witness: a non-matching order first, then an
order stored with email `A@B.com`. -/
def c6Edges : List OrderNode := [emailNode "other@x.com", emailNode "A@B.com"]

/-- Shopify oracle returning `c6Edges`. -/
def c6Shopify : String → ShopifyHttp := fun _ => .success none c6Edges

/-- Witness for C6: the theorem applied at `c6Edges` with request email
`a@b.com`. -/
theorem C6_email_scan_witness :
    emailMatches (emailNode "A@B.com") "a@b.com" = true ∧
    ((get_order_from_shopify scfgFull c6Shopify "1001" "a@b.com").fst =
        .order (emailNode "A@B.com") →
      emailMatches (emailNode "A@B.com") "a@b.com" = true ∧
      ∃ l₁ l₂, c6Edges = l₁ ++ emailNode "A@B.com" :: l₂ ∧
        ∀ y ∈ l₁, emailMatches y "a@b.com" = false) ∧
    ((∀ y ∈ c6Edges, emailMatches y "a@b.com" = false) →
      (get_order_from_shopify scfgFull c6Shopify "1001" "a@b.com").fst = .noOrder) ∧
    ("1001" ≠ "" → "a@b.com" ≠ "" →
      (∀ y ∈ c6Edges, emailMatches y "a@b.com" = false) →
      (track_order cfgFull scfgFull c6Shopify noDhl noTeiker
          { orderNumber := some "1001", email := some "a@b.com" }).fst =
        .notFound "Pedido no encontrado o el email no coincide") :=
  C6_email_scan cfgFull scfgFull c6Shopify noDhl noTeiker c6Edges "1001" "a@b.com"
    (emailNode "A@B.com") (by decide) (by decide) rfl

/-- Claim C4: every 200 response body of the endpoint has step1 true,
step2 true iff both tracking number and tracking company are present
(truthy), step3 true iff the normalized status is `in_transit` or
`delivered`, step4 true iff the status is `delivered`; hence step4 implies
step3. -/
theorem C4_progress_steps (cfg : Config) (scfg : ShopifyConfig)
    (shopifyApi : String → ShopifyHttp) (dhlApi : String → HttpResult DHLBody)
    (teikerApi : String → HttpResult TeikerBody) (req : TrackRequest) (body : TrackBody)
    (h : (track_order cfg scfg shopifyApi dhlApi teikerApi req).fst = .ok body) :
    body.progressSteps.step1 = true ∧
    body.progressSteps.step2 =
      (optTruthy body.trackingNumber && optTruthy body.trackingCompany) ∧
    body.progressSteps.step3 =
      (body.currentCarrierStatus == "in_transit" ||
        body.currentCarrierStatus == "delivered") ∧
    body.progressSteps.step4 = (body.currentCarrierStatus == "delivered") ∧
    (body.progressSteps.step4 = true → body.progressSteps.step3 = true) := by
  unfold track_order at h
  split at h
  · cases h
  · dsimp only at h
    split at h
    · cases h
    · cases h
    · injection h with hb
      subst hb
      refine ⟨rfl, rfl, rfl, rfl, ?_⟩
      intro h4
      simp only [buildBody, progressStepsFor] at h4 ⊢
      simp [h4]

/-- The first tracking entry of the C2/C4 order: carrier "DHL Express",
number "123456". -/
def c2TrackingEntry : TrackingInfoEntry :=
  { number := some "123456", company := some "DHL Express" }

/-- The C2/C4 backend order: order `#1001` for `x@y.com` with one
fulfillment tracked by `c2TrackingEntry`. -/
def c2Order : OrderNode :=
  { name := "#1001", email := "x@y.com", displayFinancialStatus := "PAID",
    displayFulfillmentStatus := "FULFILLED", lineItems := [],
    totalAmount := "100.0", totalCurrencyCode := "MXN",
    fulfillments := [{ trackingInfo := [c2TrackingEntry] }] }

/-- Shopify oracle returning exactly `c2Order`. -/
def c2Shopify : String → ShopifyHttp := fun _ => .success none [c2Order]

/-- First DHL event of the C2 scenario. -/
def c2DhlEvent1 : DHLEvent :=
  { timestamp := some "2024-01-01T10:00", location := none,
    description := some "Shipment picked up" }

/-- Second DHL event of the C2 scenario. -/
def c2DhlEvent2 : DHLEvent :=
  { timestamp := some "2024-01-02T08:00", location := none,
    description := some "Shipment in transit" }

/-- DHL status object of the C2 scenario: status code "transit". -/
def c2DhlStatusInfo : DHLStatusInfo :=
  { statusCode := some "transit", description := some "En camino" }

/-- DHL shipment of the C2 scenario: `c2DhlStatusInfo` and two events. -/
def c2DhlShipment : DHLShipment :=
  { status := some c2DhlStatusInfo, events := some [c2DhlEvent1, c2DhlEvent2] }

/-- DHL body of the C2 scenario: one shipment, two events. -/
def c2DhlBody : DHLBody :=
  { shipments := some [c2DhlShipment] }

/-- DHL oracle returning `c2DhlBody`. -/
def c2Dhl : String → HttpResult DHLBody := fun _ => .success c2DhlBody

/-- Claim C2: for request `{orderNumber: "1001", email: "x@y.com"}` with
the C2 backend order and the C2 DHL response (status code "transit", two
events), the endpoint's 200 body has trackingCompany "DHL Express",
currentCarrierStatus `in_transit`, progressSteps
`{step1: true, step2: true, step3: true, step4: false}` and two events. -/
theorem C2_end_to_end :
    ∃ body : TrackBody,
      (track_order cfgFull scfgFull c2Shopify c2Dhl noTeiker
          { orderNumber := some "1001", email := some "x@y.com" }).fst = .ok body ∧
      body.trackingCompany = some "DHL Express" ∧
      body.currentCarrierStatus = "in_transit" ∧
      body.progressSteps =
        { step1 := true, step2 := true, step3 := true, step4 := false } ∧
      body.events.length = 2 := by
  refine ⟨_, rfl, ?_, ?_, ?_, ?_⟩ <;> rfl

/-- The 200 body produced in the C2 scenario, used by the C4 witness. -/
def c4Body : TrackBody :=
  buildBody c2Order (some "123456") (some "DHL Express") (dhlSuccess c2DhlBody)

/-- Witness for C4: the theorem applied at the C2 scenario's concrete 200
response. -/
theorem C4_progress_steps_witness :
    c4Body.progressSteps.step1 = true ∧
    c4Body.progressSteps.step2 =
      (optTruthy c4Body.trackingNumber && optTruthy c4Body.trackingCompany) ∧
    c4Body.progressSteps.step3 =
      (c4Body.currentCarrierStatus == "in_transit" ||
        c4Body.currentCarrierStatus == "delivered") ∧
    c4Body.progressSteps.step4 = (c4Body.currentCarrierStatus == "delivered") ∧
    (c4Body.progressSteps.step4 = true → c4Body.progressSteps.step3 = true) :=
  C4_progress_steps cfgFull scfgFull c2Shopify c2Dhl noTeiker
    { orderNumber := some "1001", email := some "x@y.com" } c4Body (by decide)

/-- Claim C9: for a non-empty tracking number, a successful (2xx) carrier
response containing no data for it — an empty `shipments` list from DHL,
or a Teiker body without a key equal to the tracking number — yields
status `unknown` (not `error`) with an empty events list, and no exception
is raised (both branches stay total). -/
theorem C9_empty_success (cfg : Config) (tc₁ tc₂ tn : Option String)
    (dhlApi : String → HttpResult DHLBody) (teikerApi : String → HttpResult TeikerBody)
    (tbody : TeikerBody)
    (htn : optTruthy tn = true)
    (hkey : optTruthy cfg.dhlApiKey = true)
    (huser : optTruthy cfg.teikerUser = true)
    (hpass : optTruthy cfg.teikerPass = true)
    (h₁ : strContains (normalizeCarrier tc₁) "dhl" = true)
    (hd : dhlApi (tn.getD "") = .success { shipments := some [] })
    (h₂ : strContains (normalizeCarrier tc₂) "dhl" = false)
    (ht : teikerApi (tn.getD "") = .success tbody)
    (hnokey : tbody.find? (fun p => p.fst == tn.getD "") = none) :
    (get_carrier_status cfg dhlApi teikerApi tc₁ tn).fst =
      { status := "unknown", description := "No se encontró información en DHL",
        events := [] } ∧
    (get_carrier_status cfg dhlApi teikerApi tc₂ tn).fst =
      { status := "unknown", description := "Estado desconocido: unknown",
        events := [] } := by
  constructor
  · unfold get_carrier_status
    simp only [htn, Bool.not_true, Bool.false_eq_true, if_false, h₁, if_true]
    unfold dhlIntegration
    rw [hkey]
    simp only [Bool.not_true, Bool.false_eq_true, if_false, hd]
    rfl
  · unfold get_carrier_status
    simp only [htn, Bool.not_true, Bool.false_eq_true, if_false, h₂, if_true]
    unfold teikerIntegration
    rw [huser, hpass]
    simp only [Bool.not_true, Bool.or_self, Bool.false_eq_true, if_false, ht]
    unfold teikerSuccess teikerLookup
    rw [hnokey]
    rfl

/-- A Teiker body keyed only by "otra", so a lookup for "99" finds no data. -/
def c9TeikerBody : TeikerBody :=
  [("otra", { Status := some "ENTREGADO", TrackingData := some [] })]

/-- DHL oracle answering 2xx with an empty shipments list. -/
def c9DhlEmpty : String → HttpResult DHLBody := fun _ => .success { shipments := some [] }

/-- Teiker oracle answering 2xx with `c9TeikerBody`. -/
def c9Teiker : String → HttpResult TeikerBody := fun _ => .success c9TeikerBody

/-- Witness for C9: the theorem applied at tracking number "99" with the
empty DHL body and the keyless Teiker body. -/
theorem C9_empty_success_witness :
    (get_carrier_status cfgFull c9DhlEmpty c9Teiker (some "DHL") (some "99")).fst =
      { status := "unknown", description := "No se encontró información en DHL",
        events := [] } ∧
    (get_carrier_status cfgFull c9DhlEmpty c9Teiker (some "Estafeta") (some "99")).fst =
      { status := "unknown", description := "Estado desconocido: unknown",
        events := [] } :=
  C9_empty_success cfgFull (some "DHL") (some "Estafeta") (some "99") c9DhlEmpty
    c9Teiker c9TeikerBody (by decide) (by decide) (by decide) (by decide)
    (by decide) rfl (by decide) rfl (by decide)

end Tracking
